import Mathlib

/-!
Shallow embedding of the repository's own code: the jupyter-book build
configuration file, the nonlinear Poisson tutorial notebook, and the
Navier-Stokes DFG 2D-3 benchmark notebook (`chapter2/ns_code2.ipynb`).
External-library computations (mesh generation, finite-element assembly,
Krylov and Newton solves, MPI communication) are modelled as opaque-valued
parameters or as the data they hand back to the scripts; everything the
scripts themselves compute is translated directly from the source.
Real-valued quantities are modelled over `ℚ` to keep every definition
executable; no claim below depends on floating-point rounding.
-/

/-! ## Book build configuration (the settings file) -/

/-- The `execute:` section of the book configuration file. -/
structure ExecuteConfig where
  execute_notebooks : String
  timeout : Nat
deriving DecidableEq

/-- The parts of the book configuration file the claims mention. -/
structure BookConfig where
  execute : ExecuteConfig
  exclude_patterns : List String
deriving DecidableEq

/-- The repository's book configuration: `execute_notebooks: force`,
`timeout: 1800`, `exclude_patterns: [README.md, chapter2/advdiffreac.md]`. -/
def bookConfig : BookConfig :=
  { execute := { execute_notebooks := "force", timeout := 1800 },
    exclude_patterns := ["README.md", "chapter2/advdiffreac.md"] }

/-- The files a book build renders: all book files except those matching
`exclude_patterns` (both patterns in this repository are literal paths). -/
def builtFiles (files : List String) : List String :=
  files.filter (fun fl => decide (fl ∉ bookConfig.exclude_patterns))

/-! ## Nonlinear Poisson notebook

`q(u) = 1 + u**2`, `u_ufl = 1 + x[0] + 2*x[1]`,
`f = - ufl.div(q(u_ufl)*ufl.grad(u_ufl))`,
`u_exact = lambda x: eval(str(u_ufl))`. -/

namespace Poisson

/-- Scalar UFL expressions over the 2-D spatial coordinate
`x = ufl.SpatialCoordinate(domain)`, covering the arithmetic fragment the
notebook builds (`u**2` appears as a product). -/
inductive UflExpr where
  | const : ℚ → UflExpr
  | coord : Fin 2 → UflExpr
  | add : UflExpr → UflExpr → UflExpr
  | mul : UflExpr → UflExpr → UflExpr
  | neg : UflExpr → UflExpr

/-- Value of a UFL expression at a spatial point. -/
def UflExpr.evalAt (p : Fin 2 → ℚ) : UflExpr → ℚ
  | .const c => c
  | .coord i => p i
  | .add a b => a.evalAt p + b.evalAt p
  | .mul a b => a.evalAt p * b.evalAt p
  | .neg a => -(a.evalAt p)

/-- Symbolic derivative with respect to coordinate `i`, as UFL's `grad` and
`div` differentiate expressions. -/
def UflExpr.dCoord (i : Fin 2) : UflExpr → UflExpr
  | .const _ => .const 0
  | .coord j => .const (if i = j then 1 else 0)
  | .add a b => .add (a.dCoord i) (b.dCoord i)
  | .mul a b => .add (.mul (a.dCoord i) b) (.mul a (b.dCoord i))
  | .neg a => .neg (a.dCoord i)

/-- `def q(u): return 1 + u**2` applied to a UFL expression. -/
def q (u : UflExpr) : UflExpr := .add (.const 1) (.mul u u)

/-- `u_ufl = 1 + x[0] + 2*x[1]` (Python association: `(1 + x[0]) + 2*x[1]`). -/
def u_ufl : UflExpr := .add (.add (.const 1) (.coord 0)) (.mul (.const 2) (.coord 1))

/-- `ufl.grad`: the vector of coordinate derivatives. -/
def gradE (e : UflExpr) : Fin 2 → UflExpr := fun i => e.dCoord i

/-- `ufl.div` of a 2-D vector expression. -/
def divE (v : Fin 2 → UflExpr) : UflExpr :=
  .add ((v 0).dCoord 0) ((v 1).dCoord 1)

/-- `f = - ufl.div(q(u_ufl)*ufl.grad(u_ufl))`: the source term, derived
symbolically from the manufactured solution `u_ufl`. -/
def f : UflExpr := .neg (divE (fun i => .mul (q u_ufl) (gradE u_ufl i)))

/-- Python arithmetic expressions, the form `str(u_ufl)` takes when it is
handed to `eval` with `x` bound to the coordinate array. -/
inductive PyExpr where
  | num : ℚ → PyExpr
  | subscript : Fin 2 → PyExpr
  | add : PyExpr → PyExpr → PyExpr
  | mul : PyExpr → PyExpr → PyExpr
  | neg : PyExpr → PyExpr

/-- The string form of a UFL arithmetic expression, parsed back as Python
arithmetic (UFL prints this fragment verbatim). -/
def UflExpr.toPy : UflExpr → PyExpr
  | .const c => .num c
  | .coord i => .subscript i
  | .add a b => .add a.toPy b.toPy
  | .mul a b => .mul a.toPy b.toPy
  | .neg a => .neg a.toPy

/-- Python `eval` of an arithmetic expression with `x` the coordinate point
(numpy broadcasting acts pointwise, so one point suffices). -/
def pyEval (p : Fin 2 → ℚ) : PyExpr → ℚ
  | .num c => c
  | .subscript i => p i
  | .add a b => pyEval p a + pyEval p b
  | .mul a b => pyEval p a * pyEval p b
  | .neg a => -(pyEval p a)

/-- `u_exact = lambda x: eval(str(u_ufl))`: the boundary callback that
`u_D.interpolate` evaluates at mesh coordinates. -/
def u_exact (p : Fin 2 → ℚ) : ℚ := pyEval p u_ufl.toPy

/-- The solve cell of the notebook:
`n, converged = solver.solve(uh)`, then `assert(converged)`, then
`print(f"Number of interations: ...")` (typo as in the source).  A failing
Python assertion raises, so nothing after it runs; the argument is the pair
the external Newton solver returns. -/
def solveCell (res : Nat × Bool) : Except String (List String) :=
  if res.2 then .ok ["Number of interations: " ++ toString res.1]
  else .error "AssertionError"

/-- Whether a cell outcome printed its diagnostic text. -/
def printsOutput : Except String (List String) → Bool
  | .ok _ => true
  | .error _ => false

/-- `numpy.max(numpy.abs(l))` over a local array (arrays of absolute values;
the fold base 0 is never the maximum of a nonempty array of absolute values
except when the true maximum is 0). -/
def npMaxAbs (l : List ℚ) : ℚ := (l.map (fun v => |v|)).foldr max 0

/-- One rank's `numpy.max(numpy.abs(uh.x.array - u_D.x.array))`. -/
def localErrorMax (uhArr uDArr : List ℚ) : ℚ :=
  npMaxAbs (List.zipWith (fun a b => a - b) uhArr uDArr)

/-- `domain.comm.allreduce(_, op=MPI.MAX)` over the per-rank values (all
values reduced here are maxima of absolute values, hence nonnegative). -/
def allreduceMax (vals : List ℚ) : ℚ := vals.foldr max 0

/-- `error_max = domain.comm.allreduce(numpy.max(numpy.abs(uh.x.array - u_D.x.array)), op=MPI.MAX)`:
each rank holds its local slices of the two dof arrays. -/
def error_max (ranks : List (List ℚ × List ℚ)) : ℚ :=
  allreduceMax (ranks.map (fun rd => localErrorMax rd.1 rd.2))

/-- `domain.comm.allreduce(error_local, op=MPI.SUM)` over the per-rank local
integrals: the quantity whose square root the script prints as `error_L2`. -/
def error_L2_sq (locals' : List ℚ) : ℚ := locals'.foldr (fun a b => a + b) 0

end Poisson

/-! ## Kinds of checks the tutorial scripts perform -/

/-- Classification of every check statement found in the two notebooks. -/
inductive CheckKind where
  /-- a computed quantity is compared against reference values
  (manufactured solution or benchmark data) -/
  | accuracyComparison
  /-- a Python `assert` on a value handed back by an external library -/
  | externalValueAssert
deriving DecidableEq

/-- All checks in the nonlinear Poisson notebook, in source order:
`assert(converged)` (flag from the external Newton solver), the `error_L2`
comparison and the `error_max` comparison against the manufactured
solution. -/
def poissonChecks : List CheckKind :=
  [.externalValueAssert, .accuracyComparison, .accuracyComparison]

/-- All checks in the Navier-Stokes notebook, in source order:
`assert(len(volumes) == 1)` (value from the external mesh generator), and
the drag, lift and pressure-difference comparisons against the FEATFLOW
reference data. -/
def nsChecks : List CheckKind :=
  [.externalValueAssert, .accuracyComparison, .accuracyComparison, .accuracyComparison]

/-! ## Navier-Stokes notebook: phases of the cell sequence -/

/-- The five phases of a tutorial notebook named by the specification. -/
inductive Phase where
  | mesh | spaces | form | solve | post
deriving DecidableEq

/-- The phases a given phase depends on (the linear chain (1) to (5)). -/
def prereqs : Phase → List Phase
  | .mesh => []
  | .spaces => [.mesh]
  | .form => [.mesh, .spaces]
  | .solve => [.mesh, .spaces, .form]
  | .post => [.mesh, .spaces, .form, .solve]

/-- A phase sequence is well ordered when each occurrence of a phase comes
after some occurrence of every phase it depends on; `seen` collects the
phases already executed. -/
def phasedFrom (seen : List Phase) : List Phase → Bool
  | [] => true
  | p :: rest => (prereqs p).all (fun ph => decide (ph ∈ seen)) && phasedFrom (p :: seen) rest

/-- The five phases in the order the specification lists them. -/
def keyPhases : List Phase := [.mesh, .spaces, .form, .solve, .post]

/-- Phase of each step of the nonlinear Poisson notebook, in cell order:
mesh creation; function space, `u_D` and boundary condition; residual form
`F`; `NonlinearProblem`; Newton-solver and Krylov-solver setup; the solve;
error post-processing. -/
def poissonPhases : List Phase :=
  [.mesh, .spaces, .form, .form, .solve, .solve, .solve, .post]

/-- Phases of the Navier-Stokes notebook cells before the time loop:
seven mesh-generation steps (gmsh geometry, boolean cut, physical groups,
boundary classification, mesh fields, generation, `model_to_mesh`); the
function spaces and boundary conditions; the three variational
forms/matrices; the three Krylov solver setups; the drag/lift forms; the
two `VTXWriter` outputs written before the loop. -/
def nsPrePhases : List Phase :=
  [.mesh, .mesh, .mesh, .mesh, .mesh, .mesh, .mesh,
   .spaces,
   .form, .form, .form,
   .solve,
   .form,
   .post, .post]

/-- Phases of one iteration of the time loop: assemble and solve the
tentative velocity system, assemble and solve the pressure correction,
assemble and solve the velocity correction, write the solutions, gather and
record the physical quantities. -/
def nsIterPhases : List Phase :=
  [.form, .solve, .form, .solve, .form, .solve, .post, .post]

/-- The time loop's phases, `num_steps` iterations long. -/
def nsLoopPhases : Nat → List Phase
  | 0 => []
  | n + 1 => nsIterPhases ++ nsLoopPhases n

/-- Phases after the loop: the FEATFLOW comparison plots. -/
def nsTailPhases : List Phase := [.post]

/-- Phase sequence of the whole Navier-Stokes notebook with `n` time
steps. -/
def nsPhases (n : Nat) : List Phase :=
  nsPrePhases ++ (nsLoopPhases n ++ nsTailPhases)

/-! ## Navier-Stokes notebook: the splitting-scheme time loop -/

namespace NS

/-- A dof-array view of a `Function`'s PETSc vector. -/
abbrev Vec := Nat → ℚ

/-- The mutable script state the time-loop body touches. -/
structure LoopState where
  t : ℚ
  inletT : ℚ
  u_inlet : Vec
  u_s : Vec
  u_ : Vec
  u_n : Vec
  u_n1 : Vec
  p_ : Vec
  phi : Vec

/-- The externally observable operations of one loop iteration, in source
order. -/
inductive Event where
  | updateTime | updateInlet
  | assembleStep1 | solveStep1
  | assembleStep2 | solveStep2
  | pressureUpdate
  | assembleStep3 | solveStep3
  | writeOutput | historyRotate | gatherQuantities
deriving DecidableEq

/-- Which events are calls of the three inner linear solvers. -/
def Event.isSolve : Event → Bool
  | .solveStep1 | .solveStep2 | .solveStep3 => true
  | _ => false

/-- PETSc `y.axpy(a, x)`: `y := a*x + y`, elementwise on the dof arrays. -/
def axpy (a : ℚ) (x y : Vec) : Vec := fun i => a * x i + y i

/-- One iteration of the time loop, translated statement by statement.
`interp` is the external `u_inlet.interpolate(inlet_velocity)`; `s1`, `s2`,
`s3` are the external assemble-and-solve calls of the three steps, each
returning the solution vector the solver writes together with its
convergence status, which the script never reads.  The second component is
the list of operations performed, in order. -/
def loopBody (dt : ℚ) (interp : ℚ → Vec) (s1 s2 s3 : LoopState → Vec × Int)
    (st : LoopState) : LoopState × List Event :=
  -- t += dt
  let stA : LoopState := { st with t := st.t + dt }
  -- inlet_velocity.t = t
  let stB : LoopState := { stA with inletT := stA.t }
  -- u_inlet.interpolate(inlet_velocity)
  let stC : LoopState := { stB with u_inlet := interp stB.inletT }
  -- Step 1: assemble A1, b1, apply bcs, solver1.solve(b1, u_s.vector)
  let stD : LoopState := { stC with u_s := (s1 stC).1 }
  -- Step 2: assemble b2, apply bcs, solver2.solve(b2, phi.vector)
  let stE : LoopState := { stD with phi := (s2 stD).1 }
  -- p_.vector.axpy(1, phi.vector)
  let stF : LoopState := { stE with p_ := axpy 1 stE.phi stE.p_ }
  -- Step 3: assemble b3, solver3.solve(b3, u_.vector)
  let stG : LoopState := { stF with u_ := (s3 stF).1 }
  -- vtx_u.write(t); vtx_p.write(t): external output, no script state change
  -- loc_n.copy(loc_n1): copy u_n into u_n1
  let stH : LoopState := { stG with u_n1 := stG.u_n }
  -- loc_.copy(loc_n): copy the new u_ into u_n
  let stI : LoopState := { stH with u_n := stH.u_ }
  (stI,
   [.updateTime, .updateInlet, .assembleStep1, .solveStep1, .assembleStep2,
    .solveStep2, .pressureUpdate, .assembleStep3, .solveStep3, .writeOutput,
    .historyRotate, .gatherQuantities])

/-- The state after `n` iterations of the loop from `st`. -/
def iterateLoop (dt : ℚ) (interp : ℚ → Vec) (s1 s2 s3 : LoopState → Vec × Int) :
    Nat → LoopState → LoopState
  | 0, st => st
  | n + 1, st => (loopBody dt interp s1 s2 s3 (iterateLoop dt interp s1 s2 s3 n st)).1

/-! ### The per-step physical-quantities block -/

/-- What one rank contributes at one time step: its local
`assemble_scalar(drag)` and `assemble_scalar(lift)` values, the cells it
found containing the two probe points, and the values `p_.eval` returns
there. -/
structure RankData where
  localDrag : ℚ
  localLift : ℚ
  frontCells : List Nat
  backCells : List Nat
  pFrontVal : ℚ
  pBackVal : ℚ
deriving DecidableEq

/-- `mesh.comm.gather(_, root=0)`: the per-rank values in rank order. -/
def commGather {α : Type} (g : RankData → α) (ranks : List RankData) : List α :=
  ranks.map g

/-- `p_front = None; if len(front_cells) > 0: p_front = p_.eval(points[0], front_cells[:1])`. -/
def pFrontLocal (r : RankData) : Option ℚ :=
  if r.frontCells.length > 0 then some r.pFrontVal else none

/-- `p_back = None; if len(back_cells) > 0: p_back = p_.eval(points[1], back_cells[:1])`. -/
def pBackLocal (r : RankData) : Option ℚ :=
  if r.backCells.length > 0 then some r.pBackVal else none

/-- Python `sum` of the gathered list. -/
def pySum (l : List ℚ) : ℚ := l.foldl (fun a b => a + b) 0

/-- `for pressure in p_front: if pressure is not None: p_diff[i] = pressure[0]; break`:
the first non-`None` entry replaces the accumulator. -/
def setFromFirst (acc : ℚ) : List (Option ℚ) → ℚ
  | [] => acc
  | none :: rest => setFromFirst acc rest
  | some v :: _ => v

/-- `for pressure in p_back: if pressure is not None: p_diff[i] -= pressure[0]; break`:
the first non-`None` entry is subtracted from the accumulator. -/
def subFromFirst (acc : ℚ) : List (Option ℚ) → ℚ
  | [] => acc
  | none :: rest => subFromFirst acc rest
  | some v :: _ => acc - v

/-- The first non-`None` entry of a gathered list, if any. -/
def firstSome : List (Option ℚ) → Option ℚ
  | [] => none
  | none :: rest => firstSome rest
  | some v :: _ => some v

/-- The entries rank 0 writes at index `i` of its arrays at one time step. -/
structure StepRecord where
  tU : ℚ
  tP : ℚ
  cD : ℚ
  cL : ℚ
  pDiff : ℚ
deriving DecidableEq

/-- The body of `if mesh.comm.rank == 0:` at one time step: `t_u[i] = t`,
`t_p[i] = t - dt/2`, `C_D[i] = sum(drag_coeff)`, `C_L[i] = sum(lift_coeff)`,
and the two first-non-`None` loops writing `p_diff[i]`, whose slot starts at
the value 0 that `np.zeros` gave it. -/
def rankZeroRecord (t dtv : ℚ) (dragCoeff liftCoeff : List ℚ)
    (pFront pBack : List (Option ℚ)) : StepRecord :=
  { tU := t
    tP := t - dtv / 2
    cD := pySum dragCoeff
    cL := pySum liftCoeff
    pDiff := subFromFirst (setFromFirst 0 pFront) pBack }

/-- The whole physical-quantities block of one time step as a function of
the executing rank: every rank contributes to the four gathers, but only
rank 0 runs the recording block; the other ranks write nothing (their
arrays do not even exist). -/
def quantitiesStep (rank : Nat) (t dtv : ℚ) (ranks : List RankData) :
    Option StepRecord :=
  if rank = 0 then
    some (rankZeroRecord t dtv
      (commGather (fun r => r.localDrag) ranks)
      (commGather (fun r => r.localLift) ranks)
      (commGather pFrontLocal ranks)
      (commGather pBackLocal ranks))
  else none

end NS

/-! ## The stateful class the Navier-Stokes notebook defines -/

/-- The only class the tutorial notebooks define: `InletVelocity`, a plain
record of one time value `t`. -/
structure InletVelocity where
  t : ℚ
deriving DecidableEq

/-- The single field update the script performs: `inlet_velocity.t = t`. -/
def InletVelocity.update (_s : InletVelocity) (tnew : ℚ) : InletVelocity :=
  { t := tnew }

/-- `__call__` at one coordinate point `x = (x0, x1)`: the returned column is
`(4 * 1.5 * np.sin(self.t * np.pi/8) * x[1] * (0.41 - x[1])/(0.41**2), 0)`.
The transcendental `np.sin` and `np.pi` are external and passed as
parameters. -/
def InletVelocity.call (sinFn : ℚ → ℚ) (piV : ℚ) (s : InletVelocity)
    (x1 : ℚ) : ℚ × ℚ :=
  (4 * (3/2) * sinFn (s.t * piV / 8) * x1 * (41/100 - x1) / (41/100)^2, 0)

/-! ## Helper lemmas -/

theorem foldrMax_nonneg : ∀ l : List ℚ, 0 ≤ l.foldr max 0
  | [] => le_refl 0
  | x :: xs => le_trans (foldrMax_nonneg xs) (le_max_right x _)

theorem foldrMax_append (a b : List ℚ) :
    (a ++ b).foldr max 0 = max (a.foldr max 0) (b.foldr max 0) := by
  induction a with
  | nil => simp [max_eq_right (foldrMax_nonneg b)]
  | cons x xs ih => simp [ih, max_assoc]

theorem npMaxAbs_append (a b : List ℚ) :
    Poisson.npMaxAbs (a ++ b) = max (Poisson.npMaxAbs a) (Poisson.npMaxAbs b) := by
  unfold Poisson.npMaxAbs
  rw [List.map_append, foldrMax_append]

theorem error_L2_sq_append (xs ys : List ℚ) :
    Poisson.error_L2_sq (xs ++ ys) = Poisson.error_L2_sq xs + Poisson.error_L2_sq ys := by
  induction xs with
  | nil => simp [Poisson.error_L2_sq]
  | cons x xs ih => simp [Poisson.error_L2_sq] at ih ⊢; rw [ih, add_assoc]

theorem phasedFrom_append (a : List Phase) :
    ∀ (s b : List Phase),
      phasedFrom s (a ++ b) = (phasedFrom s a && phasedFrom (a.reverse ++ s) b) := by
  induction a with
  | nil => intro s b; simp [phasedFrom]
  | cons x xs ih =>
      intro s b
      simp [phasedFrom, ih (x :: s) b, Bool.and_assoc]

theorem phasedFrom_of_full :
    ∀ (l s : List Phase), (∀ p : Phase, p ∈ s) → phasedFrom s l = true := by
  intro l
  induction l with
  | nil => intro s _; rfl
  | cons p rest ih =>
      intro s hs
      simp only [phasedFrom, Bool.and_eq_true, List.all_eq_true]
      exact ⟨fun ph _ => decide_eq_true (hs ph),
             ih (p :: s) (fun ph => List.mem_cons_of_mem _ (hs ph))⟩

theorem setFromFirst_eq : ∀ (l : List (Option ℚ)) (acc : ℚ),
    NS.setFromFirst acc l = (NS.firstSome l).getD acc
  | [], _ => rfl
  | none :: rest, acc => setFromFirst_eq rest acc
  | some _ :: _, _ => rfl

theorem subFromFirst_eq : ∀ (l : List (Option ℚ)) (acc : ℚ),
    NS.subFromFirst acc l = acc - (NS.firstSome l).getD 0
  | [], acc => (sub_zero acc).symm
  | none :: rest, acc => subFromFirst_eq rest acc
  | some _ :: _, _ => rfl

theorem firstSome_of_all_none : ∀ l : List (Option ℚ),
    (∀ o ∈ l, o = none) → NS.firstSome l = none := by
  intro l
  induction l with
  | nil => intro _; rfl
  | cons o rest ih =>
      intro h
      have ho : o = none := h o (List.mem_cons_self o rest)
      subst ho
      exact ih (fun o' ho' => h o' (List.mem_cons_of_mem _ ho'))

theorem pySum_eq_sum : ∀ l : List ℚ, NS.pySum l = l.sum := by
  have aux : ∀ (l : List ℚ) (acc : ℚ), l.foldl (fun a b => a + b) acc = acc + l.sum := by
    intro l
    induction l with
    | nil => intro acc; simp
    | cons x xs ih => intro acc; simp [ih, add_assoc]
  intro l
  simp [NS.pySum, aux l 0]

theorem loopBody_history (dt : ℚ) (interp : ℚ → NS.Vec)
    (s1 s2 s3 : NS.LoopState → NS.Vec × Int) (st : NS.LoopState) :
    (NS.loopBody dt interp s1 s2 s3 st).1.u_n = (NS.loopBody dt interp s1 s2 s3 st).1.u_ ∧
    (NS.loopBody dt interp s1 s2 s3 st).1.u_n1 = st.u_n :=
  ⟨rfl, rfl⟩

/-! ## Claim theorems -/

/-- Claim C1: in the nonlinear Poisson tutorial, `solver.solve(uh)` returns
the pair (iteration count, converged flag); the script asserts the flag,
prints the iteration count exactly when the flag is true, and on
non-convergence it fails at the assertion and prints nothing. -/
theorem solve_cell_asserts_convergence_flag (n : Nat) :
    Poisson.printsOutput (Poisson.solveCell (n, true)) = true ∧
    Poisson.printsOutput (Poisson.solveCell (n, false)) = false ∧
    Poisson.solveCell (n, true) = .ok ["Number of interations: " ++ toString n] ∧
    Poisson.solveCell (n, false) = .error "AssertionError" :=
  ⟨rfl, rfl, rfl, rfl⟩

/-- Claim C3: the only class the tutorial code defines, `InletVelocity`, is a
plain record of one time value with no invariant the code has to maintain:
every state is a direct constructor image of its field, the script's only
mutation (`inlet_velocity.t = t`) is indistinguishable from constructing a
fresh object, and one such mutation maps any state to any other state, so
the state space is unconstrained. -/
theorem inlet_velocity_state_has_no_invariant :
    (∀ s : InletVelocity, InletVelocity.mk s.t = s) ∧
    (∀ (s : InletVelocity) (v : ℚ), InletVelocity.update s v = InletVelocity.mk v) ∧
    (∀ s s' : InletVelocity, InletVelocity.update s s'.t = s') :=
  ⟨fun _ => rfl, fun _ _ => rfl, fun _ _ => rfl⟩

/-- Claim C7: the book-build configuration forces re-execution of every
notebook on each build, bounds each notebook's execution by a timeout of
1800 seconds, and excludes exactly `README.md` and
`chapter2/advdiffreac.md` from the build. -/
theorem book_build_config_spec :
    bookConfig.execute.execute_notebooks = "force" ∧
    bookConfig.execute.timeout = 1800 ∧
    bookConfig.exclude_patterns = ["README.md", "chapter2/advdiffreac.md"] ∧
    (∀ (files : List String) (fl : String),
      fl ∈ builtFiles files ↔
        fl ∈ files ∧ fl ≠ "README.md" ∧ fl ≠ "chapter2/advdiffreac.md") := by
  refine ⟨rfl, rfl, rfl, fun files fl => ?_⟩
  simp [builtFiles, bookConfig, List.mem_filter, not_or]

/-- Claim C8: in the nonlinear Poisson tutorial the source term and boundary
data are mutually consistent by construction: `f` is the symbolic
`-div((1 + u^2) * grad(u))` of `u_ufl = 1 + x[0] + 2*x[1]` (here it
evaluates to `-10*(1 + x[0] + 2*x[1])` at every point), and the boundary
callback `u_exact`, obtained by evaluating the string form of the same UFL
expression, returns `1 + x[0] + 2*x[1]` at every coordinate point — the
very manufactured solution `f` was derived from. -/
theorem manufactured_solution_consistency (p : Fin 2 → ℚ) :
    Poisson.u_exact p = 1 + p 0 + 2 * p 1 ∧
    Poisson.u_exact p = Poisson.UflExpr.evalAt p Poisson.u_ufl ∧
    Poisson.UflExpr.evalAt p Poisson.f = -10 * (1 + p 0 + 2 * p 1) := by
  refine ⟨?_, ?_, ?_⟩
  · simp [Poisson.u_exact, Poisson.u_ufl, Poisson.UflExpr.toPy, Poisson.pyEval]
  · simp [Poisson.u_exact, Poisson.u_ufl, Poisson.UflExpr.toPy, Poisson.pyEval,
      Poisson.UflExpr.evalAt]
  · simp only [Poisson.f, Poisson.u_ufl, Poisson.q, Poisson.divE, Poisson.gradE,
      Poisson.UflExpr.dCoord, Poisson.UflExpr.evalAt]
    norm_num
    ring

/-- Claim C9: the Navier-Stokes time loop preserves the velocity-history
invariant: after every iteration `u_n` holds the velocity just computed
(so at the start of the next iteration it is the previous step's solution),
and one iteration later that same velocity sits in `u_n1`, because the
end-of-iteration update copies `u_n` into `u_n1` before copying the newly
computed `u_` into `u_n`. -/
theorem ns_velocity_history_invariant (dt : ℚ) (interp : ℚ → NS.Vec)
    (s1 s2 s3 : NS.LoopState → NS.Vec × Int) (st0 : NS.LoopState) (k : Nat) :
    (NS.iterateLoop dt interp s1 s2 s3 (k + 1) st0).u_n =
      (NS.iterateLoop dt interp s1 s2 s3 (k + 1) st0).u_ ∧
    (NS.iterateLoop dt interp s1 s2 s3 (k + 2) st0).u_n1 =
      (NS.iterateLoop dt interp s1 s2 s3 (k + 1) st0).u_ := by
  have h1 := loopBody_history dt interp s1 s2 s3 (NS.iterateLoop dt interp s1 s2 s3 k st0)
  have h2 := loopBody_history dt interp s1 s2 s3 (NS.iterateLoop dt interp s1 s2 s3 (k + 1) st0)
  exact ⟨h1.1, h2.2.trans h1.1⟩

/-- Claim C5: each notebook is a self-contained script whose cell sequence
realises the five phases — mesh, function spaces and boundary conditions,
variational forms, solver invocation, post-processing — with the five
phases occurring (in the listed order) as a subsequence of the trace, and
no occurrence of a phase coming before every occurrence of a phase it
depends on; this holds for the nonlinear Poisson notebook and for the
Navier-Stokes notebook at every number of time steps. -/
theorem notebooks_execute_phases_in_order :
    (List.Sublist keyPhases poissonPhases ∧ phasedFrom [] poissonPhases = true) ∧
    (∀ n : Nat,
      List.Sublist keyPhases (nsPhases n) ∧ phasedFrom [] (nsPhases n) = true) := by
  refine ⟨⟨by decide, by decide⟩, fun n => ⟨?_, ?_⟩⟩
  · have h1 : List.Sublist keyPhases nsPrePhases := by decide
    exact h1.trans (List.sublist_append_left _ _)
  · rw [nsPhases, phasedFrom_append]
    have h2 : phasedFrom [] nsPrePhases = true := by decide
    rw [h2, Bool.true_and]
    exact phasedFrom_of_full _ _ (fun p => by cases p <;> decide)

/-- Claim C2: every iteration of the Navier-Stokes time loop performs, in
order, the tentative velocity solve, the pressure correction solve followed
by the update `p_ := p_ + phi`, and the velocity correction solve, as a
fixed straight-line sequence of operations that is the same for every state
and every solver outcome (no retries, no branching), and the final state
does not depend on the convergence statuses the three inner linear solves
return. -/
theorem ns_time_loop_three_step_scheme (dt : ℚ) (interp : ℚ → NS.Vec)
    (s1 s2 s3 : NS.LoopState → NS.Vec × Int) (st : NS.LoopState) :
    (NS.loopBody dt interp s1 s2 s3 st).2 =
      [NS.Event.updateTime, .updateInlet, .assembleStep1, .solveStep1,
       .assembleStep2, .solveStep2, .pressureUpdate, .assembleStep3,
       .solveStep3, .writeOutput, .historyRotate, .gatherQuantities] ∧
    (NS.loopBody dt interp s1 s2 s3 st).2.filter NS.Event.isSolve =
      [NS.Event.solveStep1, NS.Event.solveStep2, NS.Event.solveStep3] ∧
    (NS.loopBody dt interp s1 s2 s3 st).1.p_ =
      NS.axpy 1 (NS.loopBody dt interp s1 s2 s3 st).1.phi st.p_ ∧
    (∀ s1' s2' s3' : NS.LoopState → NS.Vec × Int,
      (∀ u, (s1 u).1 = (s1' u).1) → (∀ u, (s2 u).1 = (s2' u).1) →
      (∀ u, (s3 u).1 = (s3' u).1) →
      (NS.loopBody dt interp s1 s2 s3 st).1 =
        (NS.loopBody dt interp s1' s2' s3' st).1) := by
  refine ⟨rfl, rfl, rfl, fun s1' s2' s3' h1 h2 h3 => ?_⟩
  simp only [NS.loopBody]
  rw [h1, h2, h3]

theorem ns_time_loop_three_step_scheme_witness :
    (NS.loopBody 1 (fun _ _ => 0)
        (fun _ => (fun _ => 1, 0)) (fun _ => (fun _ => 2, 0)) (fun _ => (fun _ => 3, 0))
        ⟨0, 0, fun _ => 0, fun _ => 0, fun _ => 0, fun _ => 0, fun _ => 0, fun _ => 0, fun _ => 0⟩).1 =
      (NS.loopBody 1 (fun _ _ => 0)
        (fun _ => (fun _ => 1, 5)) (fun _ => (fun _ => 2, 7)) (fun _ => (fun _ => 3, 9))
        ⟨0, 0, fun _ => 0, fun _ => 0, fun _ => 0, fun _ => 0, fun _ => 0, fun _ => 0, fun _ => 0⟩).1 :=
  (ns_time_loop_three_step_scheme 1 (fun _ _ => 0)
    (fun _ => (fun _ => 1, 0)) (fun _ => (fun _ => 2, 0)) (fun _ => (fun _ => 3, 0))
    ⟨0, 0, fun _ => 0, fun _ => 0, fun _ => 0, fun _ => 0, fun _ => 0, fun _ => 0, fun _ => 0⟩).2.2.2
    (fun _ => (fun _ => 1, 5)) (fun _ => (fun _ => 2, 7)) (fun _ => (fun _ => 3, 9))
    (fun _ => rfl) (fun _ => rfl) (fun _ => rfl)

/-- Claim C6: the only checks the tutorial scripts perform are numerical
accuracy comparisons against known reference values (every check found in
the two notebooks is such a comparison or a Python assert on an
external-library value); the nonlinear Poisson error check reduces, over
all ranks, to the maximum absolute nodal difference between the computed
and the interpolated manufactured solution, and the squared L2 error
aggregates per-rank contributions additively. -/
theorem tutorial_checks_are_accuracy_checks :
    ((poissonChecks ++ nsChecks).all
      (fun c => decide (c = .accuracyComparison ∨ c = .externalValueAssert))) = true ∧
    (∀ ranks : List (List ℚ × List ℚ),
      Poisson.error_max ranks =
        Poisson.npMaxAbs
          ((ranks.map (fun rd => List.zipWith (fun a b => a - b) rd.1 rd.2)).flatten)) ∧
    (∀ xs ys : List ℚ,
      Poisson.error_L2_sq (xs ++ ys) =
        Poisson.error_L2_sq xs + Poisson.error_L2_sq ys) := by
  refine ⟨by decide, fun ranks => ?_, error_L2_sq_append⟩
  induction ranks with
  | nil => rfl
  | cons rd rest ih =>
      simp only [Poisson.error_max, Poisson.allreduceMax, List.map_cons, List.foldr_cons,
        List.flatten_cons, npMaxAbs_append]
      rw [← ih]
      rfl

/-- Claim C10: on rank 0, at every time step, `C_D[i]` and `C_L[i]` are the
sums of the gathered per-rank drag and lift contributions, and `p_diff[i]`
equals the first non-`None` gathered front-point pressure minus the first
non-`None` gathered back-point pressure; when no rank owns a cell
containing one of the probe points the corresponding term is silently
omitted, leaving the slot's `np.zeros` value 0 in that term's place. -/
theorem rank_zero_quantities_formulas (t dtv : ℚ) (ranks : List NS.RankData) :
    NS.quantitiesStep 0 t dtv ranks =
      some (NS.rankZeroRecord t dtv
        (NS.commGather (fun r => r.localDrag) ranks)
        (NS.commGather (fun r => r.localLift) ranks)
        (NS.commGather NS.pFrontLocal ranks)
        (NS.commGather NS.pBackLocal ranks)) ∧
    (NS.rankZeroRecord t dtv
        (NS.commGather (fun r => r.localDrag) ranks)
        (NS.commGather (fun r => r.localLift) ranks)
        (NS.commGather NS.pFrontLocal ranks)
        (NS.commGather NS.pBackLocal ranks)).cD =
      (ranks.map (fun r => r.localDrag)).sum ∧
    (NS.rankZeroRecord t dtv
        (NS.commGather (fun r => r.localDrag) ranks)
        (NS.commGather (fun r => r.localLift) ranks)
        (NS.commGather NS.pFrontLocal ranks)
        (NS.commGather NS.pBackLocal ranks)).cL =
      (ranks.map (fun r => r.localLift)).sum ∧
    (NS.rankZeroRecord t dtv
        (NS.commGather (fun r => r.localDrag) ranks)
        (NS.commGather (fun r => r.localLift) ranks)
        (NS.commGather NS.pFrontLocal ranks)
        (NS.commGather NS.pBackLocal ranks)).pDiff =
      (NS.firstSome (ranks.map NS.pFrontLocal)).getD 0 -
        (NS.firstSome (ranks.map NS.pBackLocal)).getD 0 ∧
    ((∀ r ∈ ranks, r.frontCells = []) →
      (NS.rankZeroRecord t dtv
        (NS.commGather (fun r => r.localDrag) ranks)
        (NS.commGather (fun r => r.localLift) ranks)
        (NS.commGather NS.pFrontLocal ranks)
        (NS.commGather NS.pBackLocal ranks)).pDiff =
      0 - (NS.firstSome (ranks.map NS.pBackLocal)).getD 0) ∧
    ((∀ r ∈ ranks, r.backCells = []) →
      (NS.rankZeroRecord t dtv
        (NS.commGather (fun r => r.localDrag) ranks)
        (NS.commGather (fun r => r.localLift) ranks)
        (NS.commGather NS.pFrontLocal ranks)
        (NS.commGather NS.pBackLocal ranks)).pDiff =
      (NS.firstSome (ranks.map NS.pFrontLocal)).getD 0) := by
  have hpd : (NS.rankZeroRecord t dtv
        (NS.commGather (fun r => r.localDrag) ranks)
        (NS.commGather (fun r => r.localLift) ranks)
        (NS.commGather NS.pFrontLocal ranks)
        (NS.commGather NS.pBackLocal ranks)).pDiff =
      (NS.firstSome (ranks.map NS.pFrontLocal)).getD 0 -
        (NS.firstSome (ranks.map NS.pBackLocal)).getD 0 := by
    show NS.subFromFirst (NS.setFromFirst 0 (NS.commGather NS.pFrontLocal ranks))
        (NS.commGather NS.pBackLocal ranks) = _
    rw [subFromFirst_eq, setFromFirst_eq, NS.commGather, NS.commGather]
  refine ⟨rfl, pySum_eq_sum _, pySum_eq_sum _, hpd, ?_, ?_⟩
  · intro hfr
    rw [hpd, firstSome_of_all_none (ranks.map NS.pFrontLocal) ?_]
    · rfl
    · intro o ho
      rcases List.mem_map.mp ho with ⟨r, hr, hro⟩
      rw [← hro, NS.pFrontLocal, hfr r hr]
      rfl
  · intro hbk
    rw [hpd, firstSome_of_all_none (ranks.map NS.pBackLocal) ?_]
    · show _ - (0:ℚ) = _
      rw [sub_zero]
    · intro o ho
      rcases List.mem_map.mp ho with ⟨r, hr, hro⟩
      rw [← hro, NS.pBackLocal, hbk r hr]
      rfl

theorem rank_zero_quantities_formulas_witness :
    ((∀ r ∈ ([⟨1, 2, [], [4], 5, 6⟩] : List NS.RankData), r.frontCells = []) ∧
      (NS.rankZeroRecord 0 1
        (NS.commGather (fun r => r.localDrag) [⟨1, 2, [], [4], 5, 6⟩])
        (NS.commGather (fun r => r.localLift) [⟨1, 2, [], [4], 5, 6⟩])
        (NS.commGather NS.pFrontLocal [⟨1, 2, [], [4], 5, 6⟩])
        (NS.commGather NS.pBackLocal [⟨1, 2, [], [4], 5, 6⟩])).pDiff =
      0 - (NS.firstSome (([⟨1, 2, [], [4], 5, 6⟩] : List NS.RankData).map NS.pBackLocal)).getD 0) ∧
    ((∀ r ∈ ([⟨1, 2, [3], [], 5, 6⟩] : List NS.RankData), r.backCells = []) ∧
      (NS.rankZeroRecord 0 1
        (NS.commGather (fun r => r.localDrag) [⟨1, 2, [3], [], 5, 6⟩])
        (NS.commGather (fun r => r.localLift) [⟨1, 2, [3], [], 5, 6⟩])
        (NS.commGather NS.pFrontLocal [⟨1, 2, [3], [], 5, 6⟩])
        (NS.commGather NS.pBackLocal [⟨1, 2, [3], [], 5, 6⟩])).pDiff =
      (NS.firstSome (([⟨1, 2, [3], [], 5, 6⟩] : List NS.RankData).map NS.pFrontLocal)).getD 0) :=
  ⟨⟨by decide, (rank_zero_quantities_formulas 0 1 [⟨1, 2, [], [4], 5, 6⟩]).2.2.2.2.1 (by decide)⟩,
   ⟨by decide, (rank_zero_quantities_formulas 0 1 [⟨1, 2, [3], [], 5, 6⟩]).2.2.2.2.2 (by decide)⟩⟩

/-- Claim C4 (counterexample): the tutorial scripts do contain rank-dependent
logic of their own — the per-time-step physical-quantities block behaves
differently on rank 0 than on rank 1 for the same gathered data, so the
claim that no rank-dependent aggregation or selection logic is implemented
in the scripts is false at this concrete input. -/
theorem ns_quantities_rank_dependence_counterexample :
    NS.quantitiesStep 0 0 1 [⟨1, 2, [], [], 5, 6⟩] ≠
      NS.quantitiesStep 1 0 1 [⟨1, 2, [], [], 5, 6⟩] := by
  decide

/-- Claim C4 (amended): all communication primitives (gathers, reductions)
are delegated to the external layer and issued as blocking calls in a fixed
sequence, but the scripts do implement rank-dependent post-processing of
their own: the physical-quantities block runs only on rank 0 (all other
ranks record nothing), and there rank 0 itself sums the gathered per-rank
drag and lift contributions and selects the first non-`None` gathered probe
pressures. -/
theorem ns_quantities_rank_zero_only_aggregation (t dtv : ℚ)
    (ranks : List NS.RankData) (rk : Nat) :
    (rk ≠ 0 → NS.quantitiesStep rk t dtv ranks = none) ∧
    NS.quantitiesStep 0 t dtv ranks =
      some (NS.rankZeroRecord t dtv
        (NS.commGather (fun r => r.localDrag) ranks)
        (NS.commGather (fun r => r.localLift) ranks)
        (NS.commGather NS.pFrontLocal ranks)
        (NS.commGather NS.pBackLocal ranks)) ∧
    (∀ g : NS.RankData → ℚ, NS.commGather g ranks = ranks.map g) ∧
    NS.pySum (NS.commGather (fun r => r.localDrag) ranks) =
      (ranks.map (fun r => r.localDrag)).sum := by
  refine ⟨fun h => ?_, rfl, fun g => rfl, pySum_eq_sum _⟩
  simp [NS.quantitiesStep, h]

theorem ns_quantities_rank_zero_only_aggregation_witness :
    ((1 : Nat) ≠ 0) ∧
      NS.quantitiesStep 1 0 1 ([⟨1, 2, [], [], 5, 6⟩] : List NS.RankData) = none :=
  ⟨by decide,
   (ns_quantities_rank_zero_only_aggregation 0 1 [⟨1, 2, [], [], 5, 6⟩] 1).1 (by decide)⟩
